import Mathlib

/-!
Verification of `utils/seed.js`.

A shallow embedding of the fixture loader `seed()` of `src/utils/seed.js`.

The script is a straight-line sequence of awaited calls against a document
store (Mongoose models `User`, `Company`, `Job`, `Application`), the `bcryptjs`
hash and `process.exit`.  The embedding makes the effects explicit:

* the store, the supply of generated identifiers, the sequence of operations
  issued and the console are fields of `World`;
* whether an external operation succeeds is read from an environment `Env`
  (one outcome per operation, each operation is issued at most once per run);
* a computation completes normally, by a thrown error (caught by `try/catch`)
  or by `process.exit` (which no `catch` intercepts).

The Mongoose models, `mongoose.connect` and `bcryptjs` are libraries outside the
repository: their behaviour is modelled by `deleteMany`, `insertMany`,
`mongooseConnect` and `bcryptHash` below, with success or failure as an input.
-/

namespace Seed

/-! ## Data model -/

/-- Generated document identifier (`_id`). -/
abbrev ObjectId := Nat

/-- A stored document: the generated `_id` next to the fields given at insertion. -/
structure Doc (α : Type) where
  _id : ObjectId
  fields : α
deriving DecidableEq

/-- Fields of a user record, `seed.js` lines 39-46. -/
structure UserFields where
  fullname : String
  email : String
  phoneNumber : Nat
  password : String
  role : String
deriving DecidableEq

/-- Fields of a company record, `seed.js` lines 54-74. -/
structure CompanyFields where
  name : String
  description : String
  website : String
  location : String
  userId : ObjectId
deriving DecidableEq

/-- Fields of a job record, `seed.js` lines 82-153. -/
structure JobFields where
  title : String
  description : String
  requirements : List String
  salary : Nat
  experienceLevel : Nat
  location : String
  jobType : String
  position : Nat
  company : ObjectId
  created_by : ObjectId
deriving DecidableEq

/-- Fields of an application record, `seed.js` lines 162-174. -/
structure ApplicationFields where
  job : ObjectId
  applicant : ObjectId
  status : String
deriving DecidableEq

/-- The four collections of the document store. -/
structure Store where
  users : List (Doc UserFields)
  companies : List (Doc CompanyFields)
  jobs : List (Doc JobFields)
  applications : List (Doc ApplicationFields)
deriving DecidableEq

/-! ## Effects -/

/-- Names of the four collections. -/
inductive Coll where
  | User
  | Company
  | Job
  | Application
deriving DecidableEq

/-- The external operations `seed()` awaits. -/
inductive Op where
  | connect
  | deleteMany (c : Coll)
  | hash
  | insertMany (c : Coll)
deriving DecidableEq

/-- Outcome of an external operation.  A failed store operation may already
have processed the first `done` documents before the error is raised (an ordered
bulk write stops at the first error and keeps what it wrote). -/
inductive Outcome where
  | ok
  | fail (done : Nat)
deriving DecidableEq

/-- The `bcryptjs` interface used by the script: `hash(plain, rounds)` draws a
fresh salt (here from `entropy`) and returns the salted hash; `compare` checks a
plaintext against a hash.  The library is external to the repository, so it is a
parameter together with its contract `compare_hash`. -/
structure Bcrypt where
  hash : String → Nat → Nat → String
  compare : String → String → Bool
  compare_hash : ∀ plain rounds entropy, compare plain (hash plain rounds entropy) = true

/-- Everything outside the script's control during one run (one process). -/
structure Env where
  outcome : Op → Outcome
  bcrypt : Bcrypt
  entropy : Nat

/-- Observable state: the store, the identifier supply, the operations issued
so far and the console lines printed so far. -/
structure World where
  store : Store
  nextId : ObjectId
  issued : List Op
  console : List String
deriving DecidableEq

/-- How a computation ends: normally, by a thrown error, or by `process.exit`. -/
inductive Completion (α : Type) where
  | normal (a : α)
  | thrown (err : String)
  | exited (code : Nat)
deriving DecidableEq

/-- Effectful computations of the script. -/
def Proc (α : Type) : Type := Env → World → Completion α × World

/-- Sequencing (`await a; b`): a thrown error or an exit skips the rest. -/
def Proc.bind {α β : Type} (m : Proc α) (f : α → Proc β) : Proc β := fun env w =>
  match m env w with
  | (.normal a, w1) => f a env w1
  | (.thrown e, w1) => (.thrown e, w1)
  | (.exited c, w1) => (.exited c, w1)

instance : Monad Proc where
  pure a := fun _ w => (.normal a, w)
  bind := Proc.bind

/-- Raise an error (`throw`). -/
def raise {α : Type} (err : String) : Proc α := fun _ w => (.thrown err, w)

/-- The statement `try body catch (err) handler`. -/
def tryCatch {α : Type} (body : Proc α) (handler : String → Proc α) : Proc α := fun env w =>
  match body env w with
  | (.normal a, w1) => (.normal a, w1)
  | (.thrown e, w1) => handler e env w1
  | (.exited c, w1) => (.exited c, w1)

/-- The call `process.exit(code)`: the process ends at once. -/
def processExit {α : Type} (code : Nat) : Proc α := fun _ w => (.exited code, w)

/-- The call `console.log(msg)`. -/
def consoleLog (msg : String) : Proc Unit := fun _ w =>
  (.normal (), { w with console := w.console ++ [msg] })

/-- The call `console.error(msg, err)`. -/
def consoleError (msg : String) (err : String) : Proc Unit := fun _ w =>
  (.normal (), { w with console := w.console ++ [msg ++ " " ++ err] })

/-- Issue an external operation: it is recorded and its outcome is read. -/
def issue (op : Op) : Proc Outcome := fun env w =>
  (.normal (env.outcome op), { w with issued := w.issued ++ [op] })

/-- The call `mongoose.connect(process.env.MONGO_URI)`. -/
def mongooseConnect : Proc Unit := do
  match ← issue Op.connect with
  | .ok => pure ()
  | .fail _ => raise "MongooseError: connect"

/-- The call `bcrypt.hash(plain, rounds)` with a number of salt rounds: a salt is
generated for this call and the salted hash is returned. -/
def bcryptHash (plain : String) (rounds : Nat) : Proc String := do
  match ← issue Op.hash with
  | .ok => fun env w => (.normal (env.bcrypt.hash plain rounds env.entropy), w)
  | .fail _ => raise "Error: bcrypt.hash"

/-- A Mongoose model: a handle on one collection of the store. -/
structure Model (α : Type) where
  coll : Coll
  get : Store → List (Doc α)
  set : List (Doc α) → Store → Store

/-- Model of `../models/user.model.js`. -/
def User : Model UserFields :=
  ⟨Coll.User, fun s => s.users, fun l s => { s with users := l }⟩

/-- Model of `../models/company.model.js`. -/
def Company : Model CompanyFields :=
  ⟨Coll.Company, fun s => s.companies, fun l s => { s with companies := l }⟩

/-- Model of `../models/job.model.js`. -/
def Job : Model JobFields :=
  ⟨Coll.Job, fun s => s.jobs, fun l s => { s with jobs := l }⟩

/-- Model of `../models/application.model.js`. -/
def Application : Model ApplicationFields :=
  ⟨Coll.Application, fun s => s.applications, fun l s => { s with applications := l }⟩

/-- Documents built from plain objects: each gets the next generated `_id`. -/
def assignIds {α : Type} (next : ObjectId) : List α → List (Doc α)
  | [] => []
  | d :: ds => ⟨next, d⟩ :: assignIds (next + 1) ds

/-- The call `Model.deleteMany()` (no filter): on success the collection is
empty; on failure the first `done` documents are gone and the error is thrown. -/
def deleteMany {α : Type} (m : Model α) : Proc Unit := do
  match ← issue (Op.deleteMany m.coll) with
  | .ok => fun _ w => (.normal (), { w with store := m.set [] w.store })
  | .fail done => fun _ w =>
      (.thrown "MongoError: deleteMany", { w with store := m.set ((m.get w.store).drop done) w.store })

/-- The call `Model.insertMany(docs)`: the documents get fresh identifiers; on
success all are appended to the collection and returned; on failure the first
`done` of them are in the collection and the error is thrown. -/
def insertMany {α : Type} (m : Model α) (docs : List α) : Proc (List (Doc α)) := do
  match ← issue (Op.insertMany m.coll) with
  | .ok => fun _ w =>
      let created := assignIds w.nextId docs
      (.normal created,
        { w with store := m.set (m.get w.store ++ created) w.store,
                 nextId := w.nextId + docs.length })
  | .fail done => fun _ w =>
      let created := assignIds w.nextId docs
      (.thrown "MongoError: insertMany",
        { w with store := m.set (m.get w.store ++ created.take done) w.store,
                 nextId := w.nextId + docs.length })

/-- Property access `x._id` on a destructured array element: a `TypeError` when
the element is `undefined`. -/
def idOf {α : Type} : Option (Doc α) → Proc ObjectId
  | some d => pure d._id
  | none => raise "TypeError: Cannot read properties of undefined (reading _id)"

/-! ## The fixture data -/

/-- The array literal passed to `User.insertMany`, `seed.js` lines 37-47. -/
def userDocs (password : String) : List UserFields :=
  [ -- Students
    { fullname := "Alice Johnson", email := "alice@student.com", phoneNumber := 9876543210,
      password := password, role := "student" },
    { fullname := "Bob Smith", email := "bob@student.com", phoneNumber := 9123456780,
      password := password, role := "student" },
    { fullname := "Eve Clark", email := "eve@student.com", phoneNumber := 9001122334,
      password := password, role := "student" },
    { fullname := "Frank Wright", email := "frank@student.com", phoneNumber := 8445566778,
      password := password, role := "student" },
    -- Recruiters
    { fullname := "Clara Recruiter", email := "clara@recruiter.com", phoneNumber := 9988776655,
      password := password, role := "recruiter" },
    { fullname := "David Recruiter", email := "david@recruiter.com", phoneNumber := 8899776655,
      password := password, role := "recruiter" } ]

/-- The array literal passed to `Company.insertMany`, `seed.js` lines 53-75;
`clara` and `david` stand for `clara._id` and `david._id`. -/
def companyDocs (clara david : ObjectId) : List CompanyFields :=
  [ { name := "Tech Corp",
      description := "A leading software company",
      website := "https://techcorp.com",
      location := "New York, USA",
      userId := clara },
    { name := "Startup Hub",
      description := "An innovative startup accelerator",
      website := "https://startuphub.com",
      location := "San Francisco, USA",
      userId := david },
    { name := "Cloud Nine",
      description := "Cloud-native solutions and services",
      website := "https://cloudnine.example",
      location := "Remote",
      userId := clara } ]

/-- The array literal passed to `Job.insertMany`, `seed.js` lines 81-154; the
arguments stand for `techCorp._id`, `startupHub._id`, `cloudNine._id`,
`clara._id` and `david._id`. -/
def jobDocs (techCorp startupHub cloudNine clara david : ObjectId) : List JobFields :=
  [ { title := "Frontend Developer",
      description := "Build delightful UIs with React, Vite, Tailwind.",
      requirements := ["React", "Vite", "Tailwind", "JavaScript"],
      salary := 90000,
      experienceLevel := 2,
      location := "Remote",
      jobType := "Full-time",
      position := 3,
      company := techCorp,
      created_by := clara },
    { title := "Backend Developer",
      description := "Design REST APIs with Node.js, Express, MongoDB.",
      requirements := ["Node.js", "Express", "MongoDB", "JWT"],
      salary := 110000,
      experienceLevel := 3,
      location := "San Francisco, USA",
      jobType := "Full-time",
      position := 2,
      company := startupHub,
      created_by := david },
    { title := "UI/UX Designer",
      description := "Create user-centered designs and prototypes.",
      requirements := ["Figma", "Wireframing", "Prototyping"],
      salary := 80000,
      experienceLevel := 2,
      location := "New York, USA",
      jobType := "Full-time",
      position := 1,
      company := techCorp,
      created_by := clara },
    { title := "DevOps Engineer",
      description := "CI/CD, Docker, Kubernetes, monitoring and reliability.",
      requirements := ["Docker", "Kubernetes", "CI/CD", "Linux"],
      salary := 120000,
      experienceLevel := 4,
      location := "Remote",
      jobType := "Full-time",
      position := 2,
      company := cloudNine,
      created_by := clara },
    { title := "Software Intern",
      description := "Assist in building features across the stack.",
      requirements := ["JavaScript", "Git", "Eagerness to learn"],
      salary := 30000,
      experienceLevel := 0,
      location := "Remote",
      jobType := "Internship",
      position := 4,
      company := startupHub,
      created_by := david },
    { title := "Part-time QA Tester",
      description := "Manual testing, bug reporting, basic automation.",
      requirements := ["Testing", "Jest", "Cypress (nice to have)"],
      salary := 40000,
      experienceLevel := 1,
      location := "Remote",
      jobType := "Part-time",
      position := 2,
      company := cloudNine,
      created_by := clara } ]

/-- The array literal passed to `Application.insertMany`, `seed.js` lines
160-175; the arguments stand for the `_id` of the jobs and of the students. -/
def applicationDocs (feDev beDev uiux devops intern qaPartTime alice bob eve frank : ObjectId) :
    List ApplicationFields :=
  [ -- Alice applies to FE + UI/UX
    { job := feDev, applicant := alice, status := "pending" },
    { job := uiux, applicant := alice, status := "accepted" },
    -- Bob applies to BE + DevOps
    { job := beDev, applicant := bob, status := "pending" },
    { job := devops, applicant := bob, status := "rejected" },
    -- Eve applies to Intern + QA
    { job := intern, applicant := eve, status := "pending" },
    { job := qaPartTime, applicant := eve, status := "pending" },
    -- Frank applies to FE
    { job := feDev, applicant := frank, status := "pending" } ]

/-! ## The script -/

/-- The function `connectDB`, `seed.js` lines 13-21. -/
def connectDB : Proc Unit :=
  tryCatch
    (do
      mongooseConnect
      consoleLog "✅ MongoDB connected for seeding")
    (fun err => do
      consoleError "❌ DB Connection failed" err
      processExit 1)

/-- The function `seed`, `seed.js` lines 23-184. -/
def seed : Proc Unit :=
  tryCatch
    (do
      connectDB
      -- 1) Clear old data
      deleteMany Application
      deleteMany Job
      deleteMany Company
      deleteMany User
      consoleLog "🗑️ Old data removed"
      -- 2) Users (hash one password for all demo accounts)
      let password ← bcryptHash "123456" 10
      let users ← insertMany User (userDocs password)
      consoleLog "👤 Users inserted"
      let alice := users[0]?
      let bob := users[1]?
      let eve := users[2]?
      let frank := users[3]?
      let clara := users[4]?
      let david := users[5]?
      -- 3) Companies (must have name + userId)
      let companies ← insertMany Company (companyDocs (← idOf clara) (← idOf david))
      consoleLog "🏢 Companies inserted"
      let techCorp := companies[0]?
      let startupHub := companies[1]?
      let cloudNine := companies[2]?
      -- 4) Jobs
      let jobs ← insertMany Job
        (jobDocs (← idOf techCorp) (← idOf startupHub) (← idOf cloudNine) (← idOf clara) (← idOf david))
      consoleLog "💼 Jobs inserted"
      let feDev := jobs[0]?
      let beDev := jobs[1]?
      let uiux := jobs[2]?
      let devops := jobs[3]?
      let intern := jobs[4]?
      let qaPartTime := jobs[5]?
      -- 5) Applications
      let _ ← insertMany Application
        (applicationDocs (← idOf feDev) (← idOf beDev) (← idOf uiux) (← idOf devops) (← idOf intern)
          (← idOf qaPartTime) (← idOf alice) (← idOf bob) (← idOf eve) (← idOf frank))
      consoleLog "📄 Applications inserted"
      consoleLog "🌱 Seed data inserted successfully!"
      processExit 0)
    (fun err => do
      consoleError "❌ Seeding failed" err
      processExit 1)

/-- The operations of `seed()` in program order. -/
def script : List Op :=
  [ Op.connect,
    Op.deleteMany Coll.Application, Op.deleteMany Coll.Job, Op.deleteMany Coll.Company,
    Op.deleteMany Coll.User,
    Op.hash,
    Op.insertMany Coll.User, Op.insertMany Coll.Company, Op.insertMany Coll.Job,
    Op.insertMany Coll.Application ]

/-- Exit code of the process, if it called `process.exit`. -/
def exitCode {α : Type} : Completion α → Option Nat
  | .exited c => some c
  | _ => none

/-- One run of the script (`seed();` at line 186) as a process: the exit code
and the world it leaves behind. -/
def runSeed (env : Env) (w : World) : Option Nat × World :=
  let r := seed env w
  (exitCode r.1, r.2)

/-- An environment in which every operation succeeds. -/
def Env.allOk (env : Env) : Prop := ∀ op ∈ script, env.outcome op = Outcome.ok

/-- Skip a run of the character `c` at the head of a list. -/
def skipRun (c : Char) : List Char → List Char
  | [] => []
  | x :: xs => if x = c then skipRun c xs else x :: xs

/-- Hash of the stand-in scheme `toyBcrypt`: like a bcrypt hash the output
carries the cost, then the salt, then the digest (here the plaintext itself). -/
def toyHash (plain : String) (rounds entropy : Nat) : String :=
  String.mk (List.replicate rounds 'r' ++ '$' :: (List.replicate entropy 's' ++ '$' :: plain.data))

/-- Verification of the stand-in scheme `toyBcrypt`. -/
def toyCompare (plain hashed : String) : Bool :=
  match skipRun 'r' hashed.data with
  | '$' :: rest => decide (skipRun 's' rest = '$' :: plain.data)
  | _ => false

/-- A stand-in hashing scheme satisfying the contract of `Bcrypt`, used to
evaluate the script on concrete inputs. -/
def toyBcrypt : Bcrypt where
  hash := toyHash
  compare := toyCompare
  compare_hash := by
    intro plain rounds entropy
    have skip : ∀ (c d : Char), d ≠ c → ∀ (n : Nat) (rest : List Char),
        skipRun c (List.replicate n c ++ d :: rest) = d :: rest := by
      intro c d h n rest
      induction n with
      | zero => simp [skipRun, h]
      | succ n ih => simpa [List.replicate_succ, skipRun] using ih
    simp only [toyCompare, toyHash]
    rw [skip 'r' '$' (by decide)]
    simp only [skip 's' '$' (by decide), decide_True]

/-- The store a successful run leaves behind when its first generated
identifier is `n` and the hash it computed is `pw`. -/
def seededStore (n : ObjectId) (pw : String) : Store :=
  { users := assignIds n (userDocs pw),
    companies := assignIds (n + 6) (companyDocs (n + 4) (n + 5)),
    jobs := assignIds (n + 9) (jobDocs (n + 6) (n + 7) (n + 8) (n + 4) (n + 5)),
    applications := assignIds (n + 15)
      (applicationDocs (n + 9) (n + 10) (n + 11) (n + 12) (n + 13) (n + 14) n (n + 1) (n + 2) (n + 3)) }

/-- An environment in which operation `op` fails after `d` documents and every
other operation succeeds. -/
def failAt (op : Op) (d : Nat) (entropy : Nat) : Env :=
  ⟨fun o => if o = op then Outcome.fail d else Outcome.ok, toyBcrypt, entropy⟩

/-- An environment in which every operation succeeds. -/
def okEnv (entropy : Nat) : Env := ⟨fun _ => Outcome.ok, toyBcrypt, entropy⟩

/-- A world with an empty store. -/
def emptyWorld : World := ⟨⟨[], [], [], []⟩, 0, [], []⟩

/-- A world whose store holds records of an earlier life, some of them dangling. -/
def staleWorld : World :=
  { store :=
      { users := [⟨3, ⟨"Old User", "old@student.com", 1, "x", "student"⟩⟩,
                  ⟨4, ⟨"Old Boss", "old@recruiter.com", 2, "y", "recruiter"⟩⟩],
        companies := [⟨5, ⟨"Old Corp", "", "", "", 4⟩⟩],
        jobs := [⟨6, ⟨"Old Job", "", [], 1, 1, "", "Full-time", 1, 5, 4⟩⟩,
                 ⟨7, ⟨"Lost Job", "", [], 1, 1, "", "Full-time", 1, 77, 78⟩⟩],
        applications := [⟨8, ⟨6, 3, "pending"⟩⟩, ⟨9, ⟨6, 3, "pending"⟩⟩] },
    nextId := 100,
    issued := [],
    console := [] }

/-- The identifier `id` was generated during the run that led from `w` to `w1`
and is the `_id` of a document of `docs`. -/
def insertedInRun {α : Type} (w w1 : World) (docs : List (Doc α)) (id : ObjectId) : Prop :=
  w.nextId ≤ id ∧ id < w1.nextId ∧ ∃ d ∈ docs, d._id = id

/-- Rename every identifier of a store, the references included. -/
def Store.rename (ρ : ObjectId → ObjectId) (s : Store) : Store :=
  { users := s.users.map fun u => ⟨ρ u._id, u.fields⟩,
    companies := s.companies.map fun c =>
      ⟨ρ c._id, { c.fields with userId := ρ c.fields.userId }⟩,
    jobs := s.jobs.map fun j =>
      ⟨ρ j._id, { j.fields with company := ρ j.fields.company,
                                created_by := ρ j.fields.created_by }⟩,
    applications := s.applications.map fun a =>
      ⟨ρ a._id, { a.fields with job := ρ a.fields.job, applicant := ρ a.fields.applicant }⟩ }

/-- Replace the password of every user of a store. -/
def Store.withPassword (p : String) (s : Store) : Store :=
  { s with users := s.users.map fun u => ⟨u._id, { u.fields with password := p }⟩ }

/-- Two stores hold the same records up to a renaming of the identifiers. -/
def SameUpToIds (s1 s2 : Store) : Prop :=
  ∃ ρ : ObjectId → ObjectId, Function.Injective ρ ∧ s2 = s1.rename ρ

/-- What the insert steps have committed when insert step `k` (0 users,
1 companies, 2 jobs, 3 applications) fails after writing `d` documents, where `e`
is the store a full run would have produced: the earlier steps are complete, the
failing step kept its first `d` documents, the later steps never ran. -/
def committedAt (k d : Nat) (e : Store) : Store :=
  { users := if 0 < k then e.users else e.users.take d,
    companies := if 1 < k then e.companies else if k = 1 then e.companies.take d else [],
    jobs := if 2 < k then e.jobs else if k = 2 then e.jobs.take d else [],
    applications := if k = 3 then e.applications.take d else [] }

/-- The operations of a list up to and including the first one that fails. -/
def untilFailure (outcome : Op → Outcome) : List Op → List Op
  | [] => []
  | op :: rest =>
    match outcome op with
    | .ok => op :: untilFailure outcome rest
    | .fail _ => [op]

/-! ## Shared lemmas -/

theorem bind_eq {α β : Type} (m : Proc α) (f : α → Proc β) : (m >>= f) = Proc.bind m f := rfl

theorem pure_eq {α : Type} (a : α) : (pure a : Proc α) = fun _ w => (Completion.normal a, w) := rfl

/-- Every run ends in `process.exit`: with code 0 when all operations succeed,
with code 1 otherwise; the operations issued stop at the first failure. -/
theorem seed_exit_issued (env : Env) (w : World) :
    ((seed env w).1 = Completion.exited 0 ∧ env.allOk ∨
      (seed env w).1 = Completion.exited 1 ∧ ¬ env.allOk) ∧
    (seed env w).2.issued = w.issued ++ untilFailure env.outcome script := by
  have key : ∀ op ∈ script, ∀ d, env.outcome op = Outcome.fail d → ¬ env.allOk := by
    intro op hop d hd hall
    rw [hall op hop] at hd
    cases hd
  cases h0 : env.outcome Op.connect with
  | fail d =>
    refine ⟨Or.inr ⟨?_, key _ (by decide) d h0⟩, ?_⟩
    all_goals
      simp only [seed, connectDB, tryCatch, bind_eq, pure_eq, Proc.bind, mongooseConnect, issue,
        deleteMany, insertMany, bcryptHash, consoleLog, consoleError, processExit, raise, idOf,
        User, Company, Job, Application, userDocs, companyDocs, jobDocs, applicationDocs, assignIds,
        script, untilFailure, h0]
  | ok =>
  cases h1 : env.outcome (Op.deleteMany Coll.Application) with
  | fail d =>
    refine ⟨Or.inr ⟨?_, key _ (by decide) d h1⟩, ?_⟩
    all_goals
      simp only [seed, connectDB, tryCatch, bind_eq, pure_eq, Proc.bind, mongooseConnect, issue,
        deleteMany, insertMany, bcryptHash, consoleLog, consoleError, processExit, raise, idOf,
        User, Company, Job, Application, userDocs, companyDocs, jobDocs, applicationDocs, assignIds,
        script, untilFailure, h0, h1]
    all_goals try
      simp only [List.getElem?_cons_zero, List.getElem?_cons_succ, List.length_cons,
        List.length_nil, List.append_assoc, List.cons_append, List.nil_append, Nat.add_assoc,
        Nat.reduceAdd]
  | ok =>
  cases h2 : env.outcome (Op.deleteMany Coll.Job) with
  | fail d =>
    refine ⟨Or.inr ⟨?_, key _ (by decide) d h2⟩, ?_⟩
    all_goals
      simp only [seed, connectDB, tryCatch, bind_eq, pure_eq, Proc.bind, mongooseConnect, issue,
        deleteMany, insertMany, bcryptHash, consoleLog, consoleError, processExit, raise, idOf,
        User, Company, Job, Application, userDocs, companyDocs, jobDocs, applicationDocs, assignIds,
        script, untilFailure, h0, h1, h2]
    all_goals try
      simp only [List.getElem?_cons_zero, List.getElem?_cons_succ, List.length_cons,
        List.length_nil, List.append_assoc, List.cons_append, List.nil_append, Nat.add_assoc,
        Nat.reduceAdd]
  | ok =>
  cases h3 : env.outcome (Op.deleteMany Coll.Company) with
  | fail d =>
    refine ⟨Or.inr ⟨?_, key _ (by decide) d h3⟩, ?_⟩
    all_goals
      simp only [seed, connectDB, tryCatch, bind_eq, pure_eq, Proc.bind, mongooseConnect, issue,
        deleteMany, insertMany, bcryptHash, consoleLog, consoleError, processExit, raise, idOf,
        User, Company, Job, Application, userDocs, companyDocs, jobDocs, applicationDocs, assignIds,
        script, untilFailure, h0, h1, h2, h3]
    all_goals try
      simp only [List.getElem?_cons_zero, List.getElem?_cons_succ, List.length_cons,
        List.length_nil, List.append_assoc, List.cons_append, List.nil_append, Nat.add_assoc,
        Nat.reduceAdd]
  | ok =>
  cases h4 : env.outcome (Op.deleteMany Coll.User) with
  | fail d =>
    refine ⟨Or.inr ⟨?_, key _ (by decide) d h4⟩, ?_⟩
    all_goals
      simp only [seed, connectDB, tryCatch, bind_eq, pure_eq, Proc.bind, mongooseConnect, issue,
        deleteMany, insertMany, bcryptHash, consoleLog, consoleError, processExit, raise, idOf,
        User, Company, Job, Application, userDocs, companyDocs, jobDocs, applicationDocs, assignIds,
        script, untilFailure, h0, h1, h2, h3, h4]
    all_goals try
      simp only [List.getElem?_cons_zero, List.getElem?_cons_succ, List.length_cons,
        List.length_nil, List.append_assoc, List.cons_append, List.nil_append, Nat.add_assoc,
        Nat.reduceAdd]
  | ok =>
  cases h5 : env.outcome Op.hash with
  | fail d =>
    refine ⟨Or.inr ⟨?_, key _ (by decide) d h5⟩, ?_⟩
    all_goals
      simp only [seed, connectDB, tryCatch, bind_eq, pure_eq, Proc.bind, mongooseConnect, issue,
        deleteMany, insertMany, bcryptHash, consoleLog, consoleError, processExit, raise, idOf,
        User, Company, Job, Application, userDocs, companyDocs, jobDocs, applicationDocs, assignIds,
        script, untilFailure, h0, h1, h2, h3, h4, h5]
    all_goals try
      simp only [List.getElem?_cons_zero, List.getElem?_cons_succ, List.length_cons,
        List.length_nil, List.append_assoc, List.cons_append, List.nil_append, Nat.add_assoc,
        Nat.reduceAdd]
  | ok =>
  cases h6 : env.outcome (Op.insertMany Coll.User) with
  | fail d =>
    refine ⟨Or.inr ⟨?_, key _ (by decide) d h6⟩, ?_⟩
    all_goals
      simp only [seed, connectDB, tryCatch, bind_eq, pure_eq, Proc.bind, mongooseConnect, issue,
        deleteMany, insertMany, bcryptHash, consoleLog, consoleError, processExit, raise, idOf,
        User, Company, Job, Application, userDocs, companyDocs, jobDocs, applicationDocs, assignIds,
        script, untilFailure, h0, h1, h2, h3, h4, h5, h6]
    all_goals try
      simp only [List.getElem?_cons_zero, List.getElem?_cons_succ, List.length_cons,
        List.length_nil, List.append_assoc, List.cons_append, List.nil_append, Nat.add_assoc,
        Nat.reduceAdd]
  | ok =>
  cases h7 : env.outcome (Op.insertMany Coll.Company) with
  | fail d =>
    refine ⟨Or.inr ⟨?_, key _ (by decide) d h7⟩, ?_⟩
    all_goals
      simp only [seed, connectDB, tryCatch, bind_eq, pure_eq, Proc.bind, mongooseConnect, issue,
        deleteMany, insertMany, bcryptHash, consoleLog, consoleError, processExit, raise, idOf,
        User, Company, Job, Application, userDocs, companyDocs, jobDocs, applicationDocs, assignIds,
        script, untilFailure, h0, h1, h2, h3, h4, h5, h6, h7]
    all_goals try
      simp only [List.getElem?_cons_zero, List.getElem?_cons_succ, List.length_cons,
        List.length_nil, List.append_assoc, List.cons_append, List.nil_append, Nat.add_assoc,
        Nat.reduceAdd]
  | ok =>
  cases h8 : env.outcome (Op.insertMany Coll.Job) with
  | fail d =>
    refine ⟨Or.inr ⟨?_, key _ (by decide) d h8⟩, ?_⟩
    all_goals
      simp only [seed, connectDB, tryCatch, bind_eq, pure_eq, Proc.bind, mongooseConnect, issue,
        deleteMany, insertMany, bcryptHash, consoleLog, consoleError, processExit, raise, idOf,
        User, Company, Job, Application, userDocs, companyDocs, jobDocs, applicationDocs, assignIds,
        script, untilFailure, h0, h1, h2, h3, h4, h5, h6, h7, h8]
    all_goals try
      simp only [List.getElem?_cons_zero, List.getElem?_cons_succ, List.length_cons,
        List.length_nil, List.append_assoc, List.cons_append, List.nil_append, Nat.add_assoc,
        Nat.reduceAdd]
  | ok =>
  cases h9 : env.outcome (Op.insertMany Coll.Application) with
  | fail d =>
    refine ⟨Or.inr ⟨?_, key _ (by decide) d h9⟩, ?_⟩
    all_goals
      simp only [seed, connectDB, tryCatch, bind_eq, pure_eq, Proc.bind, mongooseConnect, issue,
        deleteMany, insertMany, bcryptHash, consoleLog, consoleError, processExit, raise, idOf,
        User, Company, Job, Application, userDocs, companyDocs, jobDocs, applicationDocs, assignIds,
        script, untilFailure, h0, h1, h2, h3, h4, h5, h6, h7, h8, h9]
    all_goals try
      simp only [List.getElem?_cons_zero, List.getElem?_cons_succ, List.length_cons,
        List.length_nil, List.append_assoc, List.cons_append, List.nil_append, Nat.add_assoc,
        Nat.reduceAdd]
  | ok =>
  have hall : env.allOk := by
    intro op hop
    simp only [script, List.mem_cons, List.mem_singleton, List.mem_nil_iff, or_false] at hop
    rcases hop with h | h | h | h | h | h | h | h | h | h <;> subst h <;> assumption
  refine ⟨Or.inl ⟨?_, hall⟩, ?_⟩
  all_goals
    simp only [seed, connectDB, tryCatch, bind_eq, pure_eq, Proc.bind, mongooseConnect, issue,
      deleteMany, insertMany, bcryptHash, consoleLog, consoleError, processExit, raise, idOf,
      User, Company, Job, Application, userDocs, companyDocs, jobDocs, applicationDocs, assignIds,
      script, untilFailure, h0, h1, h2, h3, h4, h5, h6, h7, h8, h9]
  all_goals try
    simp only [List.getElem?_cons_zero, List.getElem?_cons_succ, List.length_cons,
      List.length_nil, List.append_assoc, List.cons_append, List.nil_append, Nat.add_assoc,
      Nat.reduceAdd]

/-- Closed form of a run in which every operation succeeds. -/
theorem seed_ok (env : Env) (w : World) (h : env.allOk) :
    seed env w =
      (Completion.exited 0,
        { store := seededStore w.nextId (env.bcrypt.hash "123456" 10 env.entropy),
          nextId := w.nextId + 22,
          issued := w.issued ++ script,
          console := w.console ++
            ["✅ MongoDB connected for seeding", "🗑️ Old data removed", "👤 Users inserted",
              "🏢 Companies inserted", "💼 Jobs inserted", "📄 Applications inserted",
              "🌱 Seed data inserted successfully!"] }) := by
  have h0 := h Op.connect (by decide)
  have h1 := h (Op.deleteMany Coll.Application) (by decide)
  have h2 := h (Op.deleteMany Coll.Job) (by decide)
  have h3 := h (Op.deleteMany Coll.Company) (by decide)
  have h4 := h (Op.deleteMany Coll.User) (by decide)
  have h5 := h Op.hash (by decide)
  have h6 := h (Op.insertMany Coll.User) (by decide)
  have h7 := h (Op.insertMany Coll.Company) (by decide)
  have h8 := h (Op.insertMany Coll.Job) (by decide)
  have h9 := h (Op.insertMany Coll.Application) (by decide)
  simp only [seed, connectDB, tryCatch, bind_eq, pure_eq, Proc.bind, mongooseConnect, issue,
    deleteMany, insertMany, bcryptHash, consoleLog, consoleError, processExit, raise, idOf,
    User, Company, Job, Application, userDocs, companyDocs, jobDocs, applicationDocs, assignIds,
    script, seededStore, h0, h1, h2, h3, h4, h5, h6, h7, h8, h9]
  simp only [List.getElem?_cons_zero, List.getElem?_cons_succ, List.length_cons,
    List.length_nil, List.append_assoc, List.cons_append, List.nil_append, Nat.add_assoc,
    Nat.reduceAdd]

theorem runSeed_ok (env : Env) (w : World) (h : env.allOk) :
    runSeed env w =
      (some 0,
        { store := seededStore w.nextId (env.bcrypt.hash "123456" 10 env.entropy),
          nextId := w.nextId + 22,
          issued := w.issued ++ script,
          console := w.console ++
            ["✅ MongoDB connected for seeding", "🗑️ Old data removed", "👤 Users inserted",
              "🏢 Companies inserted", "💼 Jobs inserted", "📄 Applications inserted",
              "🌱 Seed data inserted successfully!"] }) := by
  simp only [runSeed, seed_ok env w h, exitCode]

theorem okEnv_allOk (entropy : Nat) : (okEnv entropy).allOk := fun _ _ => rfl

/-! ## The claims -/

/-- C1: for every initial world, a run of `seed()` in which every operation
succeeds exits with code 0 and leaves exactly 6 users, 3 companies, 6 jobs and
7 applications in the store, whatever the collections held before. -/
theorem C1_counts (env : Env) (w : World) (h : env.allOk) :
    (runSeed env w).1 = some 0 ∧
    (runSeed env w).2.store.users.length = 6 ∧
    (runSeed env w).2.store.companies.length = 3 ∧
    (runSeed env w).2.store.jobs.length = 6 ∧
    (runSeed env w).2.store.applications.length = 7 := by
  rw [runSeed_ok env w h]
  exact ⟨rfl, rfl, rfl, rfl, rfl⟩

theorem C1_counts_witness :
    (okEnv 3).allOk ∧
    ((runSeed (okEnv 3) staleWorld).1 = some 0 ∧
      (runSeed (okEnv 3) staleWorld).2.store.users.length = 6 ∧
      (runSeed (okEnv 3) staleWorld).2.store.companies.length = 3 ∧
      (runSeed (okEnv 3) staleWorld).2.store.jobs.length = 6 ∧
      (runSeed (okEnv 3) staleWorld).2.store.applications.length = 7) :=
  ⟨okEnv_allOk 3, C1_counts (okEnv 3) staleWorld (okEnv_allOk 3)⟩

/-- C2: after a successful run referential integrity holds in the store: every
`Company.userId`, `Job.created_by` and `Application.applicant` is the `_id` of a
user generated in that run, every `Job.company` the `_id` of a company generated
in that run and every `Application.job` the `_id` of a job generated in that run. -/
theorem C2_referential_integrity (env : Env) (w : World) (h : env.allOk) :
    (∀ c ∈ (runSeed env w).2.store.companies,
      insertedInRun w (runSeed env w).2 (runSeed env w).2.store.users c.fields.userId) ∧
    (∀ j ∈ (runSeed env w).2.store.jobs,
      insertedInRun w (runSeed env w).2 (runSeed env w).2.store.users j.fields.created_by ∧
      insertedInRun w (runSeed env w).2 (runSeed env w).2.store.companies j.fields.company) ∧
    (∀ a ∈ (runSeed env w).2.store.applications,
      insertedInRun w (runSeed env w).2 (runSeed env w).2.store.users a.fields.applicant ∧
      insertedInRun w (runSeed env w).2 (runSeed env w).2.store.jobs a.fields.job) := by
  rw [runSeed_ok env w h]
  simp [insertedInRun, seededStore, assignIds, userDocs, companyDocs, jobDocs, applicationDocs]

theorem C2_referential_integrity_witness :
    (okEnv 3).allOk ∧
    ((∀ c ∈ (runSeed (okEnv 3) staleWorld).2.store.companies,
      insertedInRun staleWorld (runSeed (okEnv 3) staleWorld).2
        (runSeed (okEnv 3) staleWorld).2.store.users c.fields.userId) ∧
    (∀ j ∈ (runSeed (okEnv 3) staleWorld).2.store.jobs,
      insertedInRun staleWorld (runSeed (okEnv 3) staleWorld).2
        (runSeed (okEnv 3) staleWorld).2.store.users j.fields.created_by ∧
      insertedInRun staleWorld (runSeed (okEnv 3) staleWorld).2
        (runSeed (okEnv 3) staleWorld).2.store.companies j.fields.company) ∧
    (∀ a ∈ (runSeed (okEnv 3) staleWorld).2.store.applications,
      insertedInRun staleWorld (runSeed (okEnv 3) staleWorld).2
        (runSeed (okEnv 3) staleWorld).2.store.users a.fields.applicant ∧
      insertedInRun staleWorld (runSeed (okEnv 3) staleWorld).2
        (runSeed (okEnv 3) staleWorld).2.store.jobs a.fields.job)) :=
  ⟨okEnv_allOk 3, C2_referential_integrity (okEnv 3) staleWorld (okEnv_allOk 3)⟩

/-- C3 as stated fails: two successful runs in succession whose hash
computations draw different salts leave stores that are not equal up to a
renaming of identifiers, because the users carry different password values. -/
theorem C3_counterexample :
    (okEnv 1).allOk ∧ (okEnv 2).allOk ∧
    ¬ SameUpToIds (runSeed (okEnv 1) emptyWorld).2.store
        (runSeed (okEnv 2) (runSeed (okEnv 1) emptyWorld).2).2.store := by
  refine ⟨okEnv_allOk 1, okEnv_allOk 2, ?_⟩
  rintro ⟨ρ, -, hρ⟩
  rw [runSeed_ok _ _ (okEnv_allOk 1), runSeed_ok _ _ (okEnv_allOk 2)] at hρ
  have hu := congrArg (fun s => s.users.map fun u => u.fields.password) hρ
  simp [Store.rename, seededStore, assignIds, userDocs, okEnv, toyBcrypt, toyHash] at hu

/-- C3 (amended): two successful runs of `seed()` in succession both exit with
code 0 and leave the same record counts; the store after the second run is the
store after the first run with the identifiers renamed (references included) and
the password of every user replaced by the hash computed in the second run. -/
theorem C3_second_run (env1 env2 : Env) (w : World) (h1 : env1.allOk) (h2 : env2.allOk) :
    (runSeed env1 w).1 = some 0 ∧
    (runSeed env2 (runSeed env1 w).2).1 = some 0 ∧
    (runSeed env2 (runSeed env1 w).2).2.store.users.length =
      (runSeed env1 w).2.store.users.length ∧
    (runSeed env2 (runSeed env1 w).2).2.store.companies.length =
      (runSeed env1 w).2.store.companies.length ∧
    (runSeed env2 (runSeed env1 w).2).2.store.jobs.length =
      (runSeed env1 w).2.store.jobs.length ∧
    (runSeed env2 (runSeed env1 w).2).2.store.applications.length =
      (runSeed env1 w).2.store.applications.length ∧
    SameUpToIds
      ((runSeed env1 w).2.store.withPassword (env2.bcrypt.hash "123456" 10 env2.entropy))
      (runSeed env2 (runSeed env1 w).2).2.store := by
  rw [runSeed_ok env1 w h1, runSeed_ok env2 _ h2]
  refine ⟨rfl, rfl, rfl, rfl, rfl, rfl, fun n => n + 22, fun a b hab => ?_, ?_⟩
  · exact Nat.add_right_cancel hab
  · simp [Store.rename, Store.withPassword, seededStore, assignIds, userDocs, companyDocs, jobDocs,
      applicationDocs]

theorem C3_second_run_witness :
    (okEnv 1).allOk ∧ (okEnv 2).allOk ∧
    ((runSeed (okEnv 1) staleWorld).1 = some 0 ∧
    (runSeed (okEnv 2) (runSeed (okEnv 1) staleWorld).2).1 = some 0 ∧
    (runSeed (okEnv 2) (runSeed (okEnv 1) staleWorld).2).2.store.users.length =
      (runSeed (okEnv 1) staleWorld).2.store.users.length ∧
    (runSeed (okEnv 2) (runSeed (okEnv 1) staleWorld).2).2.store.companies.length =
      (runSeed (okEnv 1) staleWorld).2.store.companies.length ∧
    (runSeed (okEnv 2) (runSeed (okEnv 1) staleWorld).2).2.store.jobs.length =
      (runSeed (okEnv 1) staleWorld).2.store.jobs.length ∧
    (runSeed (okEnv 2) (runSeed (okEnv 1) staleWorld).2).2.store.applications.length =
      (runSeed (okEnv 1) staleWorld).2.store.applications.length ∧
    SameUpToIds
      ((runSeed (okEnv 1) staleWorld).2.store.withPassword
        ((okEnv 2).bcrypt.hash "123456" 10 (okEnv 2).entropy))
      (runSeed (okEnv 2) (runSeed (okEnv 1) staleWorld).2).2.store) :=
  ⟨okEnv_allOk 1, okEnv_allOk 2, C3_second_run (okEnv 1) (okEnv 2) staleWorld (okEnv_allOk 1) (okEnv_allOk 2)⟩

/-- C4: `seed()` always terminates the process; the exit code is 0 exactly when
the connection, the four deletes, the hash and the four inserts all succeed and
1 exactly when one of them fails; the operations issued are those of the script
in order up to and including the first failing one, and none after it. -/
theorem C4_exit_code (env : Env) (w : World) :
    ((runSeed env w).1 = some 0 ↔ env.allOk) ∧
    ((runSeed env w).1 = some 1 ↔ ¬ env.allOk) ∧
    (runSeed env w).2.issued = w.issued ++ untilFailure env.outcome script := by
  obtain ⟨hcode, hissued⟩ := seed_exit_issued env w
  refine ⟨?_, ?_, hissued⟩
  · rcases hcode with ⟨hc, hall⟩ | ⟨hc, hall⟩ <;> simp [runSeed, hc, exitCode, hall]
  · rcases hcode with ⟨hc, hall⟩ | ⟨hc, hall⟩ <;> simp [runSeed, hc, exitCode, hall]

/-- C5: when the connection step fails the process exits with code 1, the store
is unchanged (all four collections hold what they held before) and the only
operation issued is the connection attempt: no `deleteMany`, no `insertMany`. -/
theorem C5_connect_failure (env : Env) (w : World) (d : Nat)
    (h : env.outcome Op.connect = Outcome.fail d) :
    (runSeed env w).1 = some 1 ∧
    (runSeed env w).2.store = w.store ∧
    (runSeed env w).2.nextId = w.nextId ∧
    (runSeed env w).2.issued = w.issued ++ [Op.connect] := by
  simp only [runSeed, seed, connectDB, tryCatch, bind_eq, pure_eq, Proc.bind, mongooseConnect,
    issue, consoleLog, consoleError, processExit, raise, exitCode, h, and_self]

theorem C5_connect_failure_witness :
    (failAt Op.connect 0 3).outcome Op.connect = Outcome.fail 0 ∧
    ((runSeed (failAt Op.connect 0 3) staleWorld).1 = some 1 ∧
    (runSeed (failAt Op.connect 0 3) staleWorld).2.store = staleWorld.store ∧
    (runSeed (failAt Op.connect 0 3) staleWorld).2.nextId = staleWorld.nextId ∧
    (runSeed (failAt Op.connect 0 3) staleWorld).2.issued = staleWorld.issued ++ [Op.connect]) :=
  ⟨rfl, C5_connect_failure (failAt Op.connect 0 3) staleWorld 0 rfl⟩

/-- C6: when insert step `k` (0 users, 1 companies, 2 jobs, 3 applications) is
the first operation to fail, the process exits with code 1, the operations
issued stop at that insert, and nothing is rolled back: every collection filled
by an earlier insert step holds exactly the records that step inserted (the
failing step keeps the `d` documents it wrote, later collections stay empty). -/
theorem C6_no_rollback (env : Env) (w : World) (k d : Nat) (c : Coll)
    (hpre : ∀ op ∈ script.take (6 + k), env.outcome op = Outcome.ok)
    (hstep : script[6 + k]? = some (Op.insertMany c))
    (hfail : env.outcome (Op.insertMany c) = Outcome.fail d) :
    (runSeed env w).1 = some 1 ∧
    (runSeed env w).2.issued = w.issued ++ script.take (6 + k + 1) ∧
    (0 < k → (runSeed env w).2.store.users =
      assignIds w.nextId (userDocs (env.bcrypt.hash "123456" 10 env.entropy))) ∧
    (1 < k → (runSeed env w).2.store.companies =
      assignIds (w.nextId + 6) (companyDocs (w.nextId + 4) (w.nextId + 5))) ∧
    (2 < k → (runSeed env w).2.store.jobs =
      assignIds (w.nextId + 9)
        (jobDocs (w.nextId + 6) (w.nextId + 7) (w.nextId + 8) (w.nextId + 4) (w.nextId + 5))) ∧
    (runSeed env w).2.store =
      committedAt k d (seededStore w.nextId (env.bcrypt.hash "123456" 10 env.entropy)) := by
  match k, hpre, hstep with
  | 0, hpre, hstep =>
    have hc : Op.insertMany Coll.User = Op.insertMany c := by
      simpa [script] using hstep
    cases hc
    have h0 := hpre Op.connect (by decide)
    have h1 := hpre (Op.deleteMany Coll.Application) (by decide)
    have h2 := hpre (Op.deleteMany Coll.Job) (by decide)
    have h3 := hpre (Op.deleteMany Coll.Company) (by decide)
    have h4 := hpre (Op.deleteMany Coll.User) (by decide)
    have h5 := hpre Op.hash (by decide)
    simp only [runSeed, exitCode, seed, connectDB, tryCatch, bind_eq, pure_eq, Proc.bind,
      mongooseConnect, issue, deleteMany, insertMany, bcryptHash, consoleLog, consoleError,
      processExit, raise, idOf, User, Company, Job, Application, userDocs, companyDocs, jobDocs,
      applicationDocs, assignIds, script, seededStore, committedAt,
      h0, h1, h2, h3, h4, h5, hfail]
    simp only [List.getElem?_cons_zero, List.getElem?_cons_succ, List.length_cons,
      List.length_nil, List.append_assoc, List.cons_append, List.nil_append, Nat.add_assoc,
      Nat.reduceAdd]
    simp
  | 1, hpre, hstep =>
    have hc : Op.insertMany Coll.Company = Op.insertMany c := by
      simpa [script] using hstep
    cases hc
    have h0 := hpre Op.connect (by decide)
    have h1 := hpre (Op.deleteMany Coll.Application) (by decide)
    have h2 := hpre (Op.deleteMany Coll.Job) (by decide)
    have h3 := hpre (Op.deleteMany Coll.Company) (by decide)
    have h4 := hpre (Op.deleteMany Coll.User) (by decide)
    have h5 := hpre Op.hash (by decide)
    have h6 := hpre (Op.insertMany Coll.User) (by decide)
    simp only [runSeed, exitCode, seed, connectDB, tryCatch, bind_eq, pure_eq, Proc.bind,
      mongooseConnect, issue, deleteMany, insertMany, bcryptHash, consoleLog, consoleError,
      processExit, raise, idOf, User, Company, Job, Application, userDocs, companyDocs, jobDocs,
      applicationDocs, assignIds, script, seededStore, committedAt,
      h0, h1, h2, h3, h4, h5, h6, hfail]
    simp only [List.getElem?_cons_zero, List.getElem?_cons_succ, List.length_cons,
      List.length_nil, List.append_assoc, List.cons_append, List.nil_append, Nat.add_assoc,
      Nat.reduceAdd]
    simp
  | 2, hpre, hstep =>
    have hc : Op.insertMany Coll.Job = Op.insertMany c := by
      simpa [script] using hstep
    cases hc
    have h0 := hpre Op.connect (by decide)
    have h1 := hpre (Op.deleteMany Coll.Application) (by decide)
    have h2 := hpre (Op.deleteMany Coll.Job) (by decide)
    have h3 := hpre (Op.deleteMany Coll.Company) (by decide)
    have h4 := hpre (Op.deleteMany Coll.User) (by decide)
    have h5 := hpre Op.hash (by decide)
    have h6 := hpre (Op.insertMany Coll.User) (by decide)
    have h7 := hpre (Op.insertMany Coll.Company) (by decide)
    simp only [runSeed, exitCode, seed, connectDB, tryCatch, bind_eq, pure_eq, Proc.bind,
      mongooseConnect, issue, deleteMany, insertMany, bcryptHash, consoleLog, consoleError,
      processExit, raise, idOf, User, Company, Job, Application, userDocs, companyDocs, jobDocs,
      applicationDocs, assignIds, script, seededStore, committedAt,
      h0, h1, h2, h3, h4, h5, h6, h7, hfail]
    simp only [List.getElem?_cons_zero, List.getElem?_cons_succ, List.length_cons,
      List.length_nil, List.append_assoc, List.cons_append, List.nil_append, Nat.add_assoc,
      Nat.reduceAdd]
    simp
  | 3, hpre, hstep =>
    have hc : Op.insertMany Coll.Application = Op.insertMany c := by
      simpa [script] using hstep
    cases hc
    have h0 := hpre Op.connect (by decide)
    have h1 := hpre (Op.deleteMany Coll.Application) (by decide)
    have h2 := hpre (Op.deleteMany Coll.Job) (by decide)
    have h3 := hpre (Op.deleteMany Coll.Company) (by decide)
    have h4 := hpre (Op.deleteMany Coll.User) (by decide)
    have h5 := hpre Op.hash (by decide)
    have h6 := hpre (Op.insertMany Coll.User) (by decide)
    have h7 := hpre (Op.insertMany Coll.Company) (by decide)
    have h8 := hpre (Op.insertMany Coll.Job) (by decide)
    simp only [runSeed, exitCode, seed, connectDB, tryCatch, bind_eq, pure_eq, Proc.bind,
      mongooseConnect, issue, deleteMany, insertMany, bcryptHash, consoleLog, consoleError,
      processExit, raise, idOf, User, Company, Job, Application, userDocs, companyDocs, jobDocs,
      applicationDocs, assignIds, script, seededStore, committedAt,
      h0, h1, h2, h3, h4, h5, h6, h7, h8, hfail]
    simp only [List.getElem?_cons_zero, List.getElem?_cons_succ, List.length_cons,
      List.length_nil, List.append_assoc, List.cons_append, List.nil_append, Nat.add_assoc,
      Nat.reduceAdd]
    simp
  | k + 4, _, hstep =>
    exfalso
    simp [script, show 6 + (k + 4) = k + 10 by omega] at hstep

theorem C6_no_rollback_witness :
    (∀ op ∈ script.take (6 + 2), (failAt (Op.insertMany Coll.Job) 1 3).outcome op = Outcome.ok) ∧
    script[6 + 2]? = some (Op.insertMany Coll.Job) ∧
    (failAt (Op.insertMany Coll.Job) 1 3).outcome (Op.insertMany Coll.Job) = Outcome.fail 1 ∧
    (runSeed (failAt (Op.insertMany Coll.Job) 1 3) staleWorld).1 = some 1 ∧
    (runSeed (failAt (Op.insertMany Coll.Job) 1 3) staleWorld).2.store.users.length = 6 ∧
    (runSeed (failAt (Op.insertMany Coll.Job) 1 3) staleWorld).2.store.companies.length = 3 ∧
    (runSeed (failAt (Op.insertMany Coll.Job) 1 3) staleWorld).2.store.jobs.length = 1 ∧
    (runSeed (failAt (Op.insertMany Coll.Job) 1 3) staleWorld).2.store.applications = [] := by
  have hpre : ∀ op ∈ script.take (6 + 2),
      (failAt (Op.insertMany Coll.Job) 1 3).outcome op = Outcome.ok := by decide
  have h := C6_no_rollback (failAt (Op.insertMany Coll.Job) 1 3) staleWorld 2 1 Coll.Job hpre rfl rfl
  refine ⟨hpre, rfl, rfl, h.1, ?_, ?_, ?_, ?_⟩
  · rw [h.2.2.1 (by decide)]; rfl
  · rw [h.2.2.2.1 (by decide)]; rfl
  · rw [h.2.2.2.2.2]; rfl
  · rw [h.2.2.2.2.2]; rfl

/-- C7: after a successful run all six users carry one and the same password
value, the result of the single hash computation of the plaintext "123456" with
10 rounds (the run issues exactly one hash operation), and that value verifies
against "123456" under the hashing scheme. -/
theorem C7_shared_password (env : Env) (w : World) (h : env.allOk) :
    (runSeed env w).2.store.users.length = 6 ∧
    (∀ u ∈ (runSeed env w).2.store.users,
      u.fields.password = env.bcrypt.hash "123456" 10 env.entropy) ∧
    env.bcrypt.compare "123456" (env.bcrypt.hash "123456" 10 env.entropy) = true ∧
    (∃ ops, (runSeed env w).2.issued = w.issued ++ ops ∧ ops.count Op.hash = 1) := by
  rw [runSeed_ok env w h]
  refine ⟨rfl, ?_, env.bcrypt.compare_hash _ _ _, script, rfl, by decide⟩
  simp [seededStore, assignIds, userDocs]

theorem C7_shared_password_witness :
    (okEnv 3).allOk ∧
    ((runSeed (okEnv 3) staleWorld).2.store.users.length = 6 ∧
    (∀ u ∈ (runSeed (okEnv 3) staleWorld).2.store.users,
      u.fields.password = (okEnv 3).bcrypt.hash "123456" 10 (okEnv 3).entropy) ∧
    (okEnv 3).bcrypt.compare "123456"
      ((okEnv 3).bcrypt.hash "123456" 10 (okEnv 3).entropy) = true ∧
    (∃ ops, (runSeed (okEnv 3) staleWorld).2.issued = staleWorld.issued ++ ops ∧
      ops.count Op.hash = 1)) :=
  ⟨okEnv_allOk 3, C7_shared_password (okEnv 3) staleWorld (okEnv_allOk 3)⟩

/-- C8: after a successful run exactly four of the six users have role
"student" and exactly two have role "recruiter", and the `userId` of each of the
three companies is the `_id` of a user of the store, every user with that `_id`
being a recruiter. -/
theorem C8_roles_and_owners (env : Env) (w : World) (h : env.allOk) :
    (runSeed env w).2.store.users.length = 6 ∧
    ((runSeed env w).2.store.users.filter fun u => u.fields.role = "student").length = 4 ∧
    ((runSeed env w).2.store.users.filter fun u => u.fields.role = "recruiter").length = 2 ∧
    (runSeed env w).2.store.companies.length = 3 ∧
    (∀ c ∈ (runSeed env w).2.store.companies,
      (∃ u ∈ (runSeed env w).2.store.users,
        u._id = c.fields.userId ∧ u.fields.role = "recruiter") ∧
      (∀ u ∈ (runSeed env w).2.store.users,
        u._id = c.fields.userId → u.fields.role = "recruiter")) := by
  rw [runSeed_ok env w h]
  refine ⟨rfl, ?_, ?_, rfl, ?_⟩
  · simp [seededStore, assignIds, userDocs]
  · simp [seededStore, assignIds, userDocs]
  · simp [seededStore, assignIds, userDocs, companyDocs]

theorem C8_roles_and_owners_witness :
    (okEnv 3).allOk ∧
    ((runSeed (okEnv 3) staleWorld).2.store.users.length = 6 ∧
    ((runSeed (okEnv 3) staleWorld).2.store.users.filter
      fun u => u.fields.role = "student").length = 4 ∧
    ((runSeed (okEnv 3) staleWorld).2.store.users.filter
      fun u => u.fields.role = "recruiter").length = 2 ∧
    (runSeed (okEnv 3) staleWorld).2.store.companies.length = 3 ∧
    (∀ c ∈ (runSeed (okEnv 3) staleWorld).2.store.companies,
      (∃ u ∈ (runSeed (okEnv 3) staleWorld).2.store.users,
        u._id = c.fields.userId ∧ u.fields.role = "recruiter") ∧
      (∀ u ∈ (runSeed (okEnv 3) staleWorld).2.store.users,
        u._id = c.fields.userId → u.fields.role = "recruiter"))) :=
  ⟨okEnv_allOk 3, C8_roles_and_owners (okEnv 3) staleWorld (okEnv_allOk 3)⟩

/-- C9: after a successful run there are seven applications; each pairs the
`_id` of a job of the store with the `_id` of a user whose role is "student",
has a status among "pending", "accepted" and "rejected", and no two of them have
the same (job, applicant) pair. -/
theorem C9_applications (env : Env) (w : World) (h : env.allOk) :
    (runSeed env w).2.store.applications.length = 7 ∧
    (∀ a ∈ (runSeed env w).2.store.applications,
      (∃ j ∈ (runSeed env w).2.store.jobs, j._id = a.fields.job) ∧
      (∃ u ∈ (runSeed env w).2.store.users,
        u._id = a.fields.applicant ∧ u.fields.role = "student") ∧
      a.fields.status ∈ ["pending", "accepted", "rejected"]) ∧
    ((runSeed env w).2.store.applications.map
      fun a => (a.fields.job, a.fields.applicant)).Nodup := by
  rw [runSeed_ok env w h]
  refine ⟨rfl, ?_, ?_⟩
  · simp [seededStore, assignIds, userDocs, jobDocs, applicationDocs]
  · simp [seededStore, assignIds, applicationDocs]

theorem C9_applications_witness :
    (okEnv 3).allOk ∧
    ((runSeed (okEnv 3) staleWorld).2.store.applications.length = 7 ∧
    (∀ a ∈ (runSeed (okEnv 3) staleWorld).2.store.applications,
      (∃ j ∈ (runSeed (okEnv 3) staleWorld).2.store.jobs, j._id = a.fields.job) ∧
      (∃ u ∈ (runSeed (okEnv 3) staleWorld).2.store.users,
        u._id = a.fields.applicant ∧ u.fields.role = "student") ∧
      a.fields.status ∈ ["pending", "accepted", "rejected"]) ∧
    ((runSeed (okEnv 3) staleWorld).2.store.applications.map
      fun a => (a.fields.job, a.fields.applicant)).Nodup) :=
  ⟨okEnv_allOk 3, C9_applications (okEnv 3) staleWorld (okEnv_allOk 3)⟩

/-- C10: after a successful run there are six jobs, and for each of them the
company it references is in the store and every company with that `_id` has the
job's `created_by` as its `userId`: the creator is the owning user of the
job's company. -/
theorem C10_creator_owns_company (env : Env) (w : World) (h : env.allOk) :
    (runSeed env w).2.store.jobs.length = 6 ∧
    (∀ j ∈ (runSeed env w).2.store.jobs,
      (∃ c ∈ (runSeed env w).2.store.companies,
        c._id = j.fields.company ∧ c.fields.userId = j.fields.created_by) ∧
      (∀ c ∈ (runSeed env w).2.store.companies,
        c._id = j.fields.company → c.fields.userId = j.fields.created_by)) := by
  rw [runSeed_ok env w h]
  refine ⟨rfl, ?_⟩
  simp [seededStore, assignIds, companyDocs, jobDocs]

theorem C10_creator_owns_company_witness :
    (okEnv 3).allOk ∧
    ((runSeed (okEnv 3) staleWorld).2.store.jobs.length = 6 ∧
    (∀ j ∈ (runSeed (okEnv 3) staleWorld).2.store.jobs,
      (∃ c ∈ (runSeed (okEnv 3) staleWorld).2.store.companies,
        c._id = j.fields.company ∧ c.fields.userId = j.fields.created_by) ∧
      (∀ c ∈ (runSeed (okEnv 3) staleWorld).2.store.companies,
        c._id = j.fields.company → c.fields.userId = j.fields.created_by))) :=
  ⟨okEnv_allOk 3, C10_creator_owns_company (okEnv 3) staleWorld (okEnv_allOk 3)⟩

end Seed
